import Mathlib

/-!
Shallow embedding of `src/osebx.py`, a three-step script:

```python
ticker = "OSEBX.OL"
osebx = yf.download(ticker, start="2015-03-01", end="2025-03-01", interval="1d")
osebx.to_csv("osebx_prices.csv")
print(osebx.head())
```

The script's own contribution is the constants, the fixed sequencing and the
absence of any error handling; the behaviour of the pandas/yfinance library
calls (`download`, `to_csv`, `head`) is modelled from the specification's
data contract, since that library code is not part of this repository.
-/

namespace Osebx

/-- Request-parameter constants, taken verbatim from the source. -/
def ticker : String := "OSEBX.OL"

/-- Literal `start` argument of the download call in the source. -/
def startArg : String := "2015-03-01"

/-- Literal `end` argument of the download call in the source. -/
def endArg : String := "2025-03-01"

/-- Literal `interval` argument of the download call in the source. -/
def intervalArg : String := "1d"

/-- Fixed relative output path, taken verbatim from the source. -/
def outPath : String := "osebx_prices.csv"

/-- A calendar date, year-month-day. -/
structure Date where
  year : Nat
  month : Nat
  day : Nat
deriving DecidableEq, Repr

/-- Chronological order on dates. -/
def Date.before (a b : Date) : Bool :=
  a.year < b.year ∨
    (a.year = b.year ∧ (a.month < b.month ∨ (a.month = b.month ∧ a.day < b.day)))

/-- Split a character list at every occurrence of the separator. -/
def fieldsAux (sep : Char) : List Char → List (List Char)
  | [] => [[]]
  | c :: rest =>
    let r := fieldsAux sep rest
    if c = sep then [] :: r
    else
      match r with
      | [] => [[c]]
      | f :: fs => (c :: f) :: fs

/-- Read a nonempty all-digit character list as a natural number. -/
def readNat : List Char → Option Nat
  | [] => none
  | cs =>
    cs.foldl
      (fun acc c =>
        match acc with
        | none => none
        | some n => if c.isDigit then some (n * 10 + (c.toNat - 48)) else none)
      (some 0)

/-- Parse an ISO `YYYY-MM-DD` date string. -/
def parseISO (s : String) : Option Date :=
  match fieldsAux '-' s.data with
  | [y, m, d] =>
    match readNat y, readNat m, readNat d with
    | some y, some m, some d => some ⟨y, m, d⟩
    | _, _, _ => none
  | _ => none

/-- Modelled from the spec: one row of the provider's price table.  Each row
has a date key and the fixed numeric fields open, high, low, close, adjusted
close and volume; cells are kept as their rendered strings, since the script
never inspects the numbers. -/
structure ProviderRow where
  date : String
  openPrice : String
  high : String
  low : String
  close : String
  adjClose : String
  volume : String
deriving DecidableEq, Repr

/-- Modelled from the spec: the full table the external market-data provider
returns for the requested window, one row per trading date. -/
structure ProviderResponse where
  rows : List ProviderRow
deriving DecidableEq, Repr

/-- The cells of a provider row, in the provider's column order. -/
def ProviderRow.cells (r : ProviderRow) : List String :=
  [r.openPrice, r.high, r.low, r.close, r.adjClose, r.volume]

/-- A pandas-style labelled table: a named date index, named columns, and one
(date, cells) pair per row. -/
structure DataFrame where
  indexName : String
  columns : List String
  rows : List (String × List String)
deriving DecidableEq, Repr

/-- Modelled from the spec: `yfinance.download` (not part of this repository)
returns the provider's table as a labelled DataFrame whose index is the date
and whose columns are open, high, low, close, adjusted close and volume. -/
def download (tickerArg startDate endDate interval : String)
    (resp : ProviderResponse) : DataFrame :=
  { indexName := "Date"
    columns := ["Open", "High", "Low", "Close", "Adj Close", "Volume"]
    rows := resp.rows.map (fun r => (r.date, r.cells)) }

/-- One line of the CSV rendering of a data row: the date first, then the
cells, comma-separated. -/
def rowLine (r : String × List String) : String :=
  String.intercalate "," (r.1 :: r.2)

/-- The lines of the CSV rendering of the table: a header naming the index and
then the columns, followed by one line per row. -/
def DataFrame.csvLines (df : DataFrame) : List String :=
  String.intercalate "," (df.indexName :: df.columns) :: df.rows.map rowLine

/-- Modelled from the spec: the byte content `DataFrame.to_csv` writes — the
header line and the data lines, each terminated by a newline. -/
def DataFrame.csvContent (df : DataFrame) : String :=
  String.join (df.csvLines.map (fun l => l ++ "\n"))

/-- A filesystem, as a map from paths to file contents. -/
def FS : Type := String → Option String

/-- The empty filesystem. -/
def emptyFS : FS := fun _ => none

/-- Writing a file replaces whatever was at the path and touches nothing
else. -/
def writeFile (fs : FS) (path content : String) : FS :=
  fun p => if p = path then some content else fs p

/-- Modelled from the spec: `DataFrame.to_csv path` overwrites the file at
`path` with the CSV rendering of the table. -/
def DataFrame.to_csv (df : DataFrame) (path : String) (fs : FS) : FS :=
  writeFile fs path df.csvContent

/-- Modelled from the spec: `DataFrame.head n` is the sub-table of the first
`n` rows. -/
def DataFrame.head (df : DataFrame) (n : Nat) : DataFrame :=
  { df with rows := df.rows.take n }

/-- The table library's default preview size used by a bare `head()` call. -/
def pandasHeadDefault : Nat := 5

/-- The failure modes the spec lists; none of them is handled by the
script. -/
inductive ScriptError where
  | networkUnreachable
  | providerError
  | diskFull
  | permissionDenied
deriving DecidableEq, Repr

/-- The environment of one run: what the provider call returns (or the
network/provider failure it raises), and whether the file write succeeds or
raises a filesystem failure. -/
structure World where
  fetchResult : Except ScriptError ProviderResponse
  writeResult : Option ScriptError
deriving Repr

/-- Observable outcome of a successful run: the final filesystem and the rows
of the preview printed to standard output. -/
structure RunOutcome where
  fs : FS
  stdoutRows : List (String × List String)

/-- The in-memory table the source binds to `osebx`, as a function of the
provider's response. -/
def osebx (resp : ProviderResponse) : DataFrame :=
  download ticker startArg endArg intervalArg resp

/-- The script, top to bottom: fetch, write, print.  An error from either
external call propagates unhandled, exactly as an uncaught Python exception
aborts the remaining statements. -/
def runScript (w : World) (fs0 : FS) : Except ScriptError RunOutcome :=
  match w.fetchResult with
  | .error e => .error e
  | .ok resp =>
    match w.writeResult with
    | some e => .error e
    | none =>
      let fs1 := (osebx resp).to_csv outPath fs0
      .ok { fs := fs1, stdoutRows := ((osebx resp).head pandasHeadDefault).rows }

/-- The process exit status: zero only when no unhandled failure occurred. -/
def exitCode (r : Except ScriptError RunOutcome) : Nat :=
  match r with
  | .error _ => 1
  | .ok _ => 0

/-- The externally visible actions of a run, in order. -/
inductive Event where
  | fetchEv (tickerArg startDate endDate interval : String)
  | writeEv (path content : String)
  | printEv (rows : List (String × List String))
deriving DecidableEq, Repr

/-- Whether an event is a network fetch. -/
def Event.isFetch : Event → Bool
  | .fetchEv _ _ _ _ => true
  | _ => false

/-- Whether an event is a file write. -/
def Event.isWrite : Event → Bool
  | .writeEv _ _ => true
  | _ => false

/-- The trace of actions a run performs: the fetch is always issued; the write
happens only if the fetch returned; the print happens only if the write also
succeeded. -/
def scriptTrace (w : World) : List Event :=
  Event.fetchEv ticker startArg endArg intervalArg ::
    match w.fetchResult with
    | .error _ => []
    | .ok resp =>
      Event.writeEv outPath (osebx resp).csvContent ::
        match w.writeResult with
        | some _ => []
        | none => [Event.printEv ((osebx resp).head pandasHeadDefault).rows]

/-- Holds when no print event happens before the first write event. -/
def noPrintBeforeWrite : List Event → Bool
  | [] => true
  | .printEv _ :: _ => false
  | .writeEv _ _ :: _ => true
  | _ :: rest => noPrintBeforeWrite rest

/-- A two-row provider response used as concrete input by the witnesses. -/
def sampleResponse : ProviderResponse :=
  { rows :=
      [⟨"2015-03-02", "1", "2", "3", "4", "5", "6"⟩,
       ⟨"2015-03-03", "7", "8", "9", "10", "11", "12"⟩] }

/-- A world in which the fetch returns `sampleResponse` and the write
succeeds. -/
def sampleWorld : World :=
  { fetchResult := .ok sampleResponse, writeResult := none }

/-- The outcome of running the script in `sampleWorld` on the empty
filesystem. -/
def sampleOut : RunOutcome :=
  { fs := writeFile emptyFS outPath (osebx sampleResponse).csvContent
    stdoutRows := ((osebx sampleResponse).head pandasHeadDefault).rows }

/-- Characterisation of a successful run: the fetch returned some response,
the write raised nothing, the final filesystem is the initial one with the
table's CSV written at the fixed path, and stdout shows the default-size
head of the table. -/
theorem runScript_ok (w : World) (fs0 : FS) (out : RunOutcome)
    (h : runScript w fs0 = .ok out) :
    ∃ resp : ProviderResponse, w.fetchResult = .ok resp ∧ w.writeResult = none ∧
      out.fs = writeFile fs0 outPath (osebx resp).csvContent ∧
      out.stdoutRows = ((osebx resp).head pandasHeadDefault).rows := by
  unfold runScript at h
  cases hf : w.fetchResult with
  | error e => rw [hf] at h; exact absurd h (by simp)
  | ok resp =>
    rw [hf] at h
    cases hw : w.writeResult with
    | some e => rw [hw] at h; exact absurd h (by simp)
    | none =>
      rw [hw] at h
      simp only [Except.ok.injEq] at h
      subst h
      exact ⟨resp, rfl, rfl, rfl, rfl⟩

/-- C9: the request parameters are literal constants — ticker "OSEBX.OL", the
one-day interval "1d", and a window from 2015-03-01 to 2025-03-01 whose start
precedes its end by exactly ten years — and every run's fetch is issued with
exactly these constants, independent of any runtime input. -/
theorem request_constants_fixed :
    ticker = "OSEBX.OL" ∧ intervalArg = "1d" ∧
    (∃ ds de : Date, parseISO startArg = some ds ∧ parseISO endArg = some de ∧
      Date.before ds de = true ∧
      de.year = ds.year + 10 ∧ de.month = ds.month ∧ de.day = ds.day) ∧
    (∀ w : World, (scriptTrace w).head? =
      some (Event.fetchEv ticker startArg endArg intervalArg)) :=
  ⟨rfl, rfl, ⟨⟨2015, 3, 1⟩, ⟨2025, 3, 1⟩, by decide, by decide, by decide,
    rfl, rfl, rfl⟩, fun _ => rfl⟩

/-- C2: for every provider response, the fetched table has exactly the fixed
columns Open, High, Low, Close, Adj Close, Volume — in particular an
adjusted-close column besides the close column — and every row carries one
cell per column. -/
theorem fetched_table_fixed_columns (resp : ProviderResponse) :
    (osebx resp).columns = ["Open", "High", "Low", "Close", "Adj Close", "Volume"] ∧
    "Adj Close" ∈ (osebx resp).columns ∧ "Close" ∈ (osebx resp).columns ∧
    "Adj Close" ≠ "Close" ∧
    ∀ r ∈ (osebx resp).rows, r.2.length = (osebx resp).columns.length := by
  have hcols : (osebx resp).columns =
      ["Open", "High", "Low", "Close", "Adj Close", "Volume"] := rfl
  refine ⟨hcols, by rw [hcols]; decide, by rw [hcols]; decide, by decide, ?_⟩
  intro r hr
  simp only [osebx, download, List.mem_map] at hr
  obtain ⟨pr, _, rfl⟩ := hr
  rfl

/-- C1: on every successful run, the header row of the written CSV names
exactly the fetched table's columns, in the table's order, with the date
index as the first field. -/
theorem csv_header_matches_table (w : World) (fs0 : FS) (out : RunOutcome)
    (h : runScript w fs0 = .ok out) :
    ∃ resp : ProviderResponse, w.fetchResult = .ok resp ∧
      out.fs outPath = some (osebx resp).csvContent ∧
      (osebx resp).csvLines.head? =
        some (String.intercalate ","
          ((osebx resp).indexName :: (osebx resp).columns)) ∧
      (osebx resp).indexName = "Date" := by
  obtain ⟨resp, hf, -, hfs, -⟩ := runScript_ok w fs0 out h
  exact ⟨resp, hf, by rw [hfs]; simp [writeFile], rfl, rfl⟩

/-- C1 witness: the header property at a concrete two-row response. -/
theorem csv_header_matches_table_witness :
    ∃ resp : ProviderResponse, sampleWorld.fetchResult = .ok resp ∧
      sampleOut.fs outPath = some (osebx resp).csvContent ∧
      (osebx resp).csvLines.head? =
        some (String.intercalate ","
          ((osebx resp).indexName :: (osebx resp).columns)) ∧
      (osebx resp).indexName = "Date" :=
  csv_header_matches_table sampleWorld emptyFS sampleOut rfl

/-- C3: on every successful run, the CSV written at the fixed path has exactly
one data line per row of the fetched table — the write drops and adds no
rows. -/
theorem csv_row_count_preserved (w : World) (fs0 : FS) (out : RunOutcome)
    (h : runScript w fs0 = .ok out) :
    ∃ resp : ProviderResponse, w.fetchResult = .ok resp ∧
      out.fs outPath = some (osebx resp).csvContent ∧
      (osebx resp).csvLines.tail = (osebx resp).rows.map rowLine ∧
      (osebx resp).csvLines.tail.length = (osebx resp).rows.length := by
  obtain ⟨resp, hf, -, hfs, -⟩ := runScript_ok w fs0 out h
  exact ⟨resp, hf, by rw [hfs]; simp [writeFile], rfl, by simp [DataFrame.csvLines]⟩

/-- C3 witness: the row-count property at a concrete two-row response. -/
theorem csv_row_count_preserved_witness :
    ∃ resp : ProviderResponse, sampleWorld.fetchResult = .ok resp ∧
      sampleOut.fs outPath = some (osebx resp).csvContent ∧
      (osebx resp).csvLines.tail = (osebx resp).rows.map rowLine ∧
      (osebx resp).csvLines.tail.length = (osebx resp).rows.length :=
  csv_row_count_preserved sampleWorld emptyFS sampleOut rfl

/-- C4: two consecutive runs in the same world — same constants, same provider
response, the second starting from the filesystem the first left behind —
write byte-identical CSV content and print identical previews. -/
theorem rerun_byte_identical (w : World) (fs0 : FS) (out1 out2 : RunOutcome)
    (h1 : runScript w fs0 = .ok out1) (h2 : runScript w out1.fs = .ok out2) :
    out1.fs outPath = out2.fs outPath ∧ out1.stdoutRows = out2.stdoutRows := by
  obtain ⟨resp, hf, -, hfs1, hout1⟩ := runScript_ok w fs0 out1 h1
  obtain ⟨resp2, hf2, -, hfs2, hout2⟩ := runScript_ok w out1.fs out2 h2
  rw [hf] at hf2
  cases hf2
  constructor
  · rw [hfs1, hfs2]; simp [writeFile]
  · rw [hout1, hout2]

/-- The outcome of a second run of the script in `sampleWorld`, starting from
the filesystem the first run left behind. -/
def sampleOut2 : RunOutcome :=
  { fs := writeFile sampleOut.fs outPath (osebx sampleResponse).csvContent
    stdoutRows := ((osebx sampleResponse).head pandasHeadDefault).rows }

/-- C4 witness: rerunning in the sample world is byte-identical. -/
theorem rerun_byte_identical_witness :
    sampleOut.fs outPath = sampleOut2.fs outPath ∧
      sampleOut.stdoutRows = sampleOut2.stdoutRows :=
  rerun_byte_identical sampleWorld emptyFS sampleOut sampleOut2 rfl rfl

/-- C5: on every successful run the whole table is written, once, to the fixed
relative path "osebx_prices.csv", replacing whatever was there; no other path
is touched; the trace holds exactly one write event; the written content
starts with the header line naming the date index first and then the
columns. -/
theorem single_overwrite_fixed_path (w : World) (fs0 : FS) (out : RunOutcome)
    (h : runScript w fs0 = .ok out) :
    ∃ resp : ProviderResponse, w.fetchResult = .ok resp ∧
      outPath = "osebx_prices.csv" ∧
      out.fs outPath = some (osebx resp).csvContent ∧
      (∀ p : String, p ≠ outPath → out.fs p = fs0 p) ∧
      (scriptTrace w).filter Event.isWrite =
        [Event.writeEv outPath (osebx resp).csvContent] ∧
      (osebx resp).csvLines.head? =
        some (String.intercalate ","
          ((osebx resp).indexName :: (osebx resp).columns)) := by
  obtain ⟨resp, hf, hw, hfs, -⟩ := runScript_ok w fs0 out h
  refine ⟨resp, hf, rfl, by rw [hfs]; simp [writeFile], ?_, ?_, rfl⟩
  · intro p hp
    rw [hfs]
    simp [writeFile, hp]
  · simp [scriptTrace, hf, hw, Event.isWrite, List.filter]

/-- C5 witness: the single-overwrite property at a concrete two-row
response. -/
theorem single_overwrite_fixed_path_witness :
    ∃ resp : ProviderResponse, sampleWorld.fetchResult = .ok resp ∧
      outPath = "osebx_prices.csv" ∧
      sampleOut.fs outPath = some (osebx resp).csvContent ∧
      (∀ p : String, p ≠ outPath → sampleOut.fs p = emptyFS p) ∧
      (scriptTrace sampleWorld).filter Event.isWrite =
        [Event.writeEv outPath (osebx resp).csvContent] ∧
      (osebx resp).csvLines.head? =
        some (String.intercalate ","
          ((osebx resp).indexName :: (osebx resp).columns)) :=
  single_overwrite_fixed_path sampleWorld emptyFS sampleOut rfl

/-- C10: the written file's content is a function of the provider response
alone — two runs whose fetches return the same response produce the same file
content and the same preview, whatever the prior state of the filesystem,
since the script reads neither the output file nor any environment input. -/
theorem output_function_of_response (w0 w1 : World) (fs0 fs1 : FS)
    (out0 out1 : RunOutcome) (hresp : w0.fetchResult = w1.fetchResult)
    (h0 : runScript w0 fs0 = .ok out0) (h1 : runScript w1 fs1 = .ok out1) :
    out0.fs outPath = out1.fs outPath ∧ out0.stdoutRows = out1.stdoutRows := by
  obtain ⟨resp0, hf0, -, hfs0, hout0⟩ := runScript_ok w0 fs0 out0 h0
  obtain ⟨resp1, hf1, -, hfs1, hout1⟩ := runScript_ok w1 fs1 out1 h1
  rw [hresp, hf1] at hf0
  cases hf0
  constructor
  · rw [hfs0, hfs1]; simp [writeFile]
  · rw [hout0, hout1]

/-- A filesystem that already holds stale content at the output path. -/
def staleFS : FS := fun p => if p = outPath then some "stale" else none

/-- The outcome of running the script in `sampleWorld` on `staleFS`. -/
def sampleOutStale : RunOutcome :=
  { fs := writeFile staleFS outPath (osebx sampleResponse).csvContent
    stdoutRows := ((osebx sampleResponse).head pandasHeadDefault).rows }

/-- C10 witness: sample-world runs from the empty filesystem and from one with
a stale output file agree on the output file and the preview. -/
theorem output_function_of_response_witness :
    sampleOut.fs outPath = sampleOutStale.fs outPath ∧
      sampleOut.stdoutRows = sampleOutStale.stdoutRows :=
  output_function_of_response sampleWorld sampleWorld emptyFS staleFS
    sampleOut sampleOutStale rfl rfl rfl

/-- A world whose provider response has a single row; the write succeeds. -/
def previewWorld : World :=
  { fetchResult := .ok { rows := [⟨"2015-03-02", "1", "2", "3", "4", "5", "6"⟩] }
    writeResult := none }

/-- C6 counterexample: in a world whose provider response holds a single row
the run succeeds but prints one preview row, not the library default of five,
so the printed row count does not always equal the default preview size. -/
theorem preview_default_count_counterexample :
    (runScript previewWorld emptyFS).map (fun o => o.stdoutRows.length) =
      .ok 1 ∧ pandasHeadDefault = 5 ∧ (1 : Nat) ≠ 5 :=
  ⟨rfl, rfl, by decide⟩

/-- C6 amended: on every successful run the printed preview rows are exactly
the first min(default, row count) rows of the table — a prefix of the written
CSV's data lines, in the same order. -/
theorem preview_prefix_of_csv (w : World) (fs0 : FS) (out : RunOutcome)
    (h : runScript w fs0 = .ok out) :
    ∃ resp : ProviderResponse, w.fetchResult = .ok resp ∧
      out.fs outPath = some (osebx resp).csvContent ∧
      out.stdoutRows = (osebx resp).rows.take pandasHeadDefault ∧
      out.stdoutRows.map rowLine =
        (osebx resp).csvLines.tail.take pandasHeadDefault ∧
      out.stdoutRows.length = min pandasHeadDefault (osebx resp).rows.length := by
  obtain ⟨resp, hf, -, hfs, hout⟩ := runScript_ok w fs0 out h
  refine ⟨resp, hf, by rw [hfs]; simp [writeFile], by rw [hout]; rfl, ?_, ?_⟩
  · rw [hout]
    simp [DataFrame.head, DataFrame.csvLines, List.map_take]
  · rw [hout]
    simp [DataFrame.head]

/-- C6 witness: the amended preview property at a concrete two-row
response. -/
theorem preview_prefix_of_csv_witness :
    ∃ resp : ProviderResponse, sampleWorld.fetchResult = .ok resp ∧
      sampleOut.fs outPath = some (osebx resp).csvContent ∧
      sampleOut.stdoutRows = (osebx resp).rows.take pandasHeadDefault ∧
      sampleOut.stdoutRows.map rowLine =
        (osebx resp).csvLines.tail.take pandasHeadDefault ∧
      sampleOut.stdoutRows.length =
        min pandasHeadDefault (osebx resp).rows.length :=
  preview_prefix_of_csv sampleWorld emptyFS sampleOut rfl

/-- C7: every failure is unhandled — a fetch failure or a write failure
propagates as the run's result, the process exits non-zero, and a normal
outcome exists only when both external calls succeeded, so there is no
recovery path and no fallback output. -/
theorem failures_unhandled (w : World) (fs0 : FS) :
    (∀ e : ScriptError, w.fetchResult = .error e →
      runScript w fs0 = .error e ∧ exitCode (runScript w fs0) ≠ 0) ∧
    (∀ (resp : ProviderResponse) (e : ScriptError),
      w.fetchResult = .ok resp → w.writeResult = some e →
      runScript w fs0 = .error e ∧ exitCode (runScript w fs0) ≠ 0) ∧
    (∀ out : RunOutcome, runScript w fs0 = .ok out →
      w.writeResult = none ∧ ∃ resp : ProviderResponse,
        w.fetchResult = .ok resp) := by
  refine ⟨?_, ?_, ?_⟩
  · intro e he
    have hrun : runScript w fs0 = .error e := by simp [runScript, he]
    exact ⟨hrun, by rw [hrun]; simp [exitCode]⟩
  · intro resp e hr he
    have hrun : runScript w fs0 = .error e := by simp [runScript, hr, he]
    exact ⟨hrun, by rw [hrun]; simp [exitCode]⟩
  · intro out h
    obtain ⟨resp, hf, hw, -, -⟩ := runScript_ok w fs0 out h
    exact ⟨hw, resp, hf⟩

/-- C8: the script's three steps run once each in the fixed order — on a
successful run the trace is exactly fetch then write then print, and on every
run (failing ones included) the trace contains exactly one fetch and never a
print before the write. -/
theorem three_steps_fixed_order (w : World) (fs0 : FS) (out : RunOutcome)
    (h : runScript w fs0 = .ok out) :
    (∃ resp : ProviderResponse, w.fetchResult = .ok resp ∧
      scriptTrace w =
        [Event.fetchEv ticker startArg endArg intervalArg,
         Event.writeEv outPath (osebx resp).csvContent,
         Event.printEv ((osebx resp).head pandasHeadDefault).rows]) ∧
    (∀ w' : World, (scriptTrace w').countP Event.isFetch = 1 ∧
      noPrintBeforeWrite (scriptTrace w') = true) := by
  obtain ⟨resp, hf, hw, -, -⟩ := runScript_ok w fs0 out h
  refine ⟨⟨resp, hf, by simp [scriptTrace, hf, hw]⟩, ?_⟩
  intro w'
  cases hf' : w'.fetchResult with
  | error e =>
    constructor <;>
      simp [scriptTrace, hf', List.countP, List.countP.go, Event.isFetch,
        noPrintBeforeWrite]
  | ok resp' =>
    cases hw' : w'.writeResult with
    | some e =>
      constructor <;>
        simp [scriptTrace, hf', hw', List.countP, List.countP.go,
          Event.isFetch, noPrintBeforeWrite]
    | none =>
      constructor <;>
        simp [scriptTrace, hf', hw', List.countP, List.countP.go,
          Event.isFetch, noPrintBeforeWrite]

/-- C8 witness: the three-step trace at a concrete two-row response. -/
theorem three_steps_fixed_order_witness :
    (∃ resp : ProviderResponse, sampleWorld.fetchResult = .ok resp ∧
      scriptTrace sampleWorld =
        [Event.fetchEv ticker startArg endArg intervalArg,
         Event.writeEv outPath (osebx resp).csvContent,
         Event.printEv ((osebx resp).head pandasHeadDefault).rows]) ∧
    (∀ w' : World, (scriptTrace w').countP Event.isFetch = 1 ∧
      noPrintBeforeWrite (scriptTrace w') = true) :=
  three_steps_fixed_order sampleWorld emptyFS sampleOut rfl

end Osebx
